import Mathlib

/-!
Shallow embedding of the retro-503 prototype control-plane core:
the message-frame codecs (`simple-system/src/message_frame.rs` and
`simple-tokio/src/message_frame.rs`), the register / flip-flop lamp-glow
model (`simple-tokio/src/server/register.rs`), and the server dispatch
loop (`simple-tokio/src/server.rs`).

Byte streams are `List Nat` (each element a byte value), machine
integers are `Nat`, and the `f64`/`f32` arithmetic of the glow model is
embedded over `ℚ`.  Fallible decoding returns `Except`.
-/

namespace Retro503

/-! ## Frame codec, simple-system variant (`message_frame.rs`) -/

def FRAME_START : List Nat := [0x5A, 0x5A]

def FRAME_END : List Nat := [0xA5, 0xA5]

/-- `frame_message` from `simple-system/src/message_frame.rs`: start
sentinel, one-byte code length (`code.len() as u8`), the code bytes, a
big-endian two-byte payload length, the payload bytes, end sentinel. -/
def frame_message (code payload : List Nat) : List Nat :=
  FRAME_START ++ [code.length % 256] ++ code ++
    [(payload.length >>> 8) % 256, payload.length % 256] ++ payload ++ FRAME_END

/-- Outcome of a failed `read_exact`/decode: an I/O error (`?`-propagated
in the Rust) versus the explicit "Invalid frame ending sentinel" error. -/
inductive UnframeError where
  | ioError
  | badEndSentinel
deriving DecidableEq

/-- `read_exact` over a list-modelled stream: `n` bytes are consumed, or
the stream has too few bytes and the read fails. -/
def readExact (n : Nat) (s : List Nat) : Option (List Nat × List Nat) :=
  if n ≤ s.length then some (s.take n, s.drop n) else none

/-- `unframe_message` from `simple-system/src/message_frame.rs`.  Each
loop iteration reads 3 bytes (start sentinel + code length); a bad start
sentinel only logs and loops on the rest of the stream; then the code and
the 2 payload-length bytes are read, then the payload and the 2
end-sentinel bytes; a bad end sentinel is a hard error. -/
def unframe_message : List Nat → Except UnframeError (List Nat × List Nat)
  | s0 :: s1 :: code_len :: rest =>
    if s0 = 0x5A ∧ s1 = 0x5A then
      match readExact (code_len + 2) rest with
      | none => .error .ioError
      | some (mid, rest2) =>
        let code := mid.take code_len
        let payload_len := mid.getD code_len 0 * 256 + mid.getD (code_len + 1) 0
        match readExact (payload_len + 2) rest2 with
        | none => .error .ioError
        | some (tail, _) =>
          if tail.drop payload_len = FRAME_END then .ok (code, tail.take payload_len)
          else .error .badEndSentinel
    else unframe_message rest
  | _ => .error .ioError

theorem readExact_append (pre post : List Nat) :
    readExact pre.length (pre ++ post) = some (pre, post) := by
  unfold readExact
  rw [if_pos (by simp), List.take_left, List.drop_left]

theorem readExact_append' (n : Nat) (pre post : List Nat) (h : pre.length = n) :
    readExact n (pre ++ post) = some (pre, post) := by
  subst h; exact readExact_append pre post

theorem readExact_all (n : Nat) (s : List Nat) (h : s.length = n) :
    readExact n s = some (s, []) := by
  subst h
  unfold readExact
  rw [if_pos (le_refl _), List.take_length, List.drop_length]

/-- Helper: decoding a frame body followed by two arbitrary end bytes
succeeds exactly when the end bytes are the end sentinel; otherwise the
operation fails with the fatal end-sentinel error. -/
theorem unframe_body_end (code payload : List Nat) (e1 e2 : Nat)
    (hc : code.length ≤ 255) (hp : payload.length ≤ 65535) :
    unframe_message (FRAME_START ++ [code.length % 256] ++ code ++
        [(payload.length >>> 8) % 256, payload.length % 256] ++ payload ++ [e1, e2]) =
      if [e1, e2] = FRAME_END then .ok (code, payload)
      else .error .badEndSentinel := by
  have hc' : code.length % 256 = code.length := Nat.mod_eq_of_lt (by omega)
  have hhi : (payload.length >>> 8) % 256 = payload.length / 256 := by
    rw [Nat.shiftRight_eq_div_pow]
    exact Nat.mod_eq_of_lt (by omega)
  have hlen : payload.length / 256 * 256 + payload.length % 256 = payload.length := by
    rw [Nat.mul_comm]
    exact Nat.div_add_mod _ _
  show unframe_message (0x5A :: 0x5A :: (code.length % 256) ::
      (((code ++ [(payload.length >>> 8) % 256, payload.length % 256]) ++ payload) ++ [e1, e2]))
      = _
  rw [hc', unframe_message, if_pos (⟨rfl, rfl⟩ : ((0x5A : Nat) = 0x5A ∧ (0x5A : Nat) = 0x5A))]
  rw [List.append_assoc (code ++ [(payload.length >>> 8) % 256, payload.length % 256])
      payload [e1, e2]]
  rw [readExact_append' (code.length + 2)
      (code ++ [(payload.length >>> 8) % 256, payload.length % 256])
      (payload ++ [e1, e2]) (by simp)]
  simp only
  rw [List.take_left' rfl]
  rw [List.getD_append_right _ _ _ _ (le_refl _)]
  rw [List.getD_append_right _ _ _ _ (by omega)]
  rw [Nat.sub_self, (by omega : code.length + 1 - code.length = 1)]
  simp only [List.getD_cons_zero, List.getD_cons_succ]
  rw [hhi, hlen]
  rw [readExact_all (payload.length + 2) (payload ++ [e1, e2]) (by simp)]
  simp only
  rw [List.drop_left, List.take_left]

/-- Helper: decoding the encoder's output recovers the code and payload. -/
theorem unframe_frame (code payload : List Nat)
    (hc : code.length ≤ 255) (hp : payload.length ≤ 65535) :
    unframe_message (frame_message code payload) = .ok (code, payload) := by
  show unframe_message (FRAME_START ++ [code.length % 256] ++ code ++
      [(payload.length >>> 8) % 256, payload.length % 256] ++ payload ++ [0xA5, 0xA5]) = _
  rw [unframe_body_end code payload 0xA5 0xA5 hc hp]
  rfl

/-- Helper: a bad start sentinel makes `unframe_message` skip the three
bytes it has read and keep scanning, with no error. -/
theorem unframe_skip (a b c : Nat) (rest : List Nat) (h : ¬(a = 0x5A ∧ b = 0x5A)) :
    unframe_message (a :: b :: c :: rest) = unframe_message rest := by
  rw [unframe_message, if_neg h]

/-! ## Frame codec, simple-tokio variant (`MessageReceiver::receive`) -/

/-- The error outcomes of `MessageReceiver::receive` in
`simple-tokio/src/message_frame.rs`. -/
inductive RecvError where
  | ioError
  | badIdLen
  | badCodeLen
  | badPayloadLen
  | badEndSentinel
deriving DecidableEq

/-- `MessageReceiver::receive` from `simple-tokio/src/message_frame.rs`.
Reads 5 bytes (start sentinel, 2 frame-length bytes, id length); a bad
start sentinel only logs and loops on the rest of the stream; the header
length fields are validated (fatal errors), the remainder of the frame is
read, and a bad end sentinel is a hard error. -/
def receive : List Nat → Except RecvError (List Nat × List Nat × List Nat)
  | a :: b :: l1 :: l2 :: il :: rest =>
    if a = 0x5A ∧ b = 0x5A then
      let frame_len := l1 * 256 + l2
      let total_len := frame_len + 2 + 2
      let code_len_x := 5 + il
      let code_x := code_len_x + 1
      if code_x > total_len then .error .badIdLen
      else
        match readExact (total_len - 5) rest with
        | none => .error .ioError
        | some (body, _) =>
          let full := a :: b :: l1 :: l2 :: il :: body
          let code_len := full.getD code_len_x 0
          let payload_len_x := code_x + code_len
          let payload_x := payload_len_x + 2
          if payload_x > total_len then .error .badCodeLen
          else
            let payload_len := full.getD payload_len_x 0 * 256 + full.getD (payload_len_x + 1) 0
            let frame_end_x := payload_x + payload_len
            if frame_end_x + 2 ≠ total_len then .error .badPayloadLen
            else if (full.drop frame_end_x).take 2 = FRAME_END then
              .ok ((full.drop 5).take il,
                   (full.drop code_x).take code_len,
                   (full.drop payload_x).take payload_len)
            else .error .badEndSentinel
    else receive rest
  | _ => .error .ioError

/-- `MessageSender::send` from `simple-tokio/src/message_frame.rs`, split
as body plus end sentinel.  The frame length covers sender id, code and
payload plus the 2+1+1+2 bytes of the embedded length fields. -/
def send_body (my_id code payload : List Nat) : List Nat :=
  let frame_len := my_id.length + code.length + payload.length + 2 + 1 + 1 + 2
  FRAME_START ++ [(frame_len >>> 8) % 256, frame_len % 256] ++
    [my_id.length % 256] ++ my_id ++ [code.length % 256] ++ code ++
    [(payload.length >>> 8) % 256, payload.length % 256] ++ payload

def send (my_id code payload : List Nat) : List Nat :=
  send_body my_id code payload ++ FRAME_END

/-- Helper: a bad start sentinel makes the tokio `receive` skip the five
bytes it has read and keep scanning, with no error. -/
theorem receive_skip (a b l1 l2 il : Nat) (rest : List Nat) (h : ¬(a = 0x5A ∧ b = 0x5A)) :
    receive (a :: b :: l1 :: l2 :: il :: rest) = receive rest := by
  rw [receive, if_neg h]

theorem drop_append_exact (l₁ l₂ : List Nat) (n k : Nat) (h : n = l₁.length + k) :
    (l₁ ++ l₂).drop n = l₂.drop k := by
  subst h; exact List.drop_append k

theorem getD_append_exact (l₁ l₂ : List Nat) (n k : Nat) (h : n = l₁.length + k) :
    (l₁ ++ l₂).getD n 0 = l₂.getD k 0 := by
  subst h
  rw [List.getD_append_right _ _ _ _ (by omega)]
  congr 1
  omega

theorem receive_send_body_end (my_id code payload : List Nat) (e1 e2 : Nat)
    (hid : my_id.length ≤ 255) (hc : code.length ≤ 255)
    (hfl : my_id.length + code.length + payload.length + 6 ≤ 65535) :
    receive (send_body my_id code payload ++ [e1, e2]) =
      if [e1, e2] = FRAME_END then .ok (my_id, code, payload)
      else .error .badEndSentinel := by
  have hi' : my_id.length % 256 = my_id.length := Nat.mod_eq_of_lt (by omega)
  show receive (0x5A :: 0x5A ::
      ((my_id.length + code.length + payload.length + 2 + 1 + 1 + 2) >>> 8) % 256 ::
      (my_id.length + code.length + payload.length + 2 + 1 + 1 + 2) % 256 ::
      (my_id.length % 256) ::
      (((((my_id ++ [code.length % 256]) ++ code) ++
        [(payload.length >>> 8) % 256, payload.length % 256]) ++ payload) ++ [e1, e2])) =
      if [e1, e2] = FRAME_END then .ok (my_id, code, payload)
      else .error .badEndSentinel
  rw [hi', receive]
  rw [if_pos (⟨rfl, rfl⟩ : ((0x5A : Nat) = 0x5A ∧ (0x5A : Nat) = 0x5A))]
  have hfl1 : ((my_id.length + code.length + payload.length + 2 + 1 + 1 + 2) >>> 8) % 256 * 256 +
      (my_id.length + code.length + payload.length + 2 + 1 + 1 + 2) % 256 =
      my_id.length + code.length + payload.length + 2 + 1 + 1 + 2 := by
    rw [Nat.shiftRight_eq_div_pow]
    rw [Nat.mod_eq_of_lt ((Nat.div_lt_iff_lt_mul (by norm_num)).mpr (by norm_num; omega))]
    rw [Nat.mul_comm]
    exact Nat.div_add_mod _ _
  rw [hfl1]
  dsimp only
  rw [if_neg (by omega : ¬(5 + my_id.length + 1 >
      my_id.length + code.length + payload.length + 2 + 1 + 1 + 2 + 2 + 2))]
  rw [readExact_all (my_id.length + code.length + payload.length + 2 + 1 + 1 + 2 + 2 + 2 - 5)
      (my_id ++ [code.length % 256] ++ code ++
        [payload.length >>> 8 % 256, payload.length % 256] ++ payload ++ [e1, e2])
      (by simp; omega)]
  dsimp only
  generalize ((my_id.length + code.length + payload.length + 2 + 1 + 1 + 2) >>> 8) % 256 = F1
  generalize (my_id.length + code.length + payload.length + 2 + 1 + 1 + 2) % 256 = F2
  have hT' : my_id ++ [code.length % 256] ++ code ++
      [payload.length >>> 8 % 256, payload.length % 256] ++ payload ++ [e1, e2] =
      my_id ++ (code.length % 256) :: (code ++ (payload.length >>> 8 % 256) ::
        (payload.length % 256) :: (payload ++ [e1, e2])) := by
    simp
  rw [hT']
  have hgc : (90 :: 90 :: F1 :: F2 :: my_id.length ::
      (my_id ++ (code.length % 256) :: (code ++ (payload.length >>> 8 % 256) ::
        (payload.length % 256) :: (payload ++ [e1, e2])))).getD (5 + my_id.length) 0 =
      code.length % 256 := by
    show (([90, 90, F1, F2, my_id.length] : List Nat) ++
        (my_id ++ (code.length % 256) :: (code ++ (payload.length >>> 8 % 256) ::
          (payload.length % 256) :: (payload ++ [e1, e2])))).getD (5 + my_id.length) 0 = _
    rw [getD_append_exact _ _ _ my_id.length (by simp)]
    rw [getD_append_exact my_id _ _ 0 (by omega)]
    simp
  rw [hgc]
  have hc2 : code.length % 256 = code.length := Nat.mod_eq_of_lt (by omega)
  rw [hc2]
  rw [if_neg (by omega : ¬(5 + my_id.length + 1 + code.length + 2 >
      my_id.length + code.length + payload.length + 2 + 1 + 1 + 2 + 2 + 2))]
  have hgp1 : (90 :: 90 :: F1 :: F2 :: my_id.length ::
      (my_id ++ code.length :: (code ++ (payload.length >>> 8 % 256) ::
        (payload.length % 256) :: (payload ++ [e1, e2])))).getD
        (5 + my_id.length + 1 + code.length) 0 = payload.length >>> 8 % 256 := by
    show (([90, 90, F1, F2, my_id.length] : List Nat) ++
        (my_id ++ code.length :: (code ++ (payload.length >>> 8 % 256) ::
          (payload.length % 256) :: (payload ++ [e1, e2])))).getD
        (5 + my_id.length + 1 + code.length) 0 = _
    rw [getD_append_exact _ _ _ (my_id.length + 1 + code.length) (by simp; omega)]
    rw [getD_append_exact my_id _ _ (1 + code.length) (by omega)]
    show (([code.length] : List Nat) ++ (code ++ (payload.length >>> 8 % 256) ::
        (payload.length % 256) :: (payload ++ [e1, e2]))).getD (1 + code.length) 0 = _
    rw [getD_append_exact _ _ _ code.length (by simp)]
    rw [getD_append_exact code _ _ 0 (by omega)]
    simp
  rw [hgp1]
  have hgp2 : (90 :: 90 :: F1 :: F2 :: my_id.length ::
      (my_id ++ code.length :: (code ++ (payload.length >>> 8 % 256) ::
        (payload.length % 256) :: (payload ++ [e1, e2])))).getD
        (5 + my_id.length + 1 + code.length + 1) 0 = payload.length % 256 := by
    show (([90, 90, F1, F2, my_id.length] : List Nat) ++
        (my_id ++ code.length :: (code ++ (payload.length >>> 8 % 256) ::
          (payload.length % 256) :: (payload ++ [e1, e2])))).getD
        (5 + my_id.length + 1 + code.length + 1) 0 = _
    rw [getD_append_exact _ _ _ (my_id.length + 1 + code.length + 1) (by simp; omega)]
    rw [getD_append_exact my_id _ _ (1 + code.length + 1) (by omega)]
    show (([code.length] : List Nat) ++ (code ++ (payload.length >>> 8 % 256) ::
        (payload.length % 256) :: (payload ++ [e1, e2]))).getD (1 + code.length + 1) 0 = _
    rw [getD_append_exact _ _ _ (code.length + 1) (by simp; omega)]
    rw [getD_append_exact code _ _ 1 (by omega)]
    simp
  rw [hgp2]
  have hpl : payload.length >>> 8 % 256 * 256 + payload.length % 256 = payload.length := by
    rw [Nat.shiftRight_eq_div_pow]
    rw [Nat.mod_eq_of_lt ((Nat.div_lt_iff_lt_mul (by norm_num)).mpr (by norm_num; omega))]
    rw [Nat.mul_comm]
    exact Nat.div_add_mod _ _
  rw [hpl]
  rw [if_neg (show ¬(5 + my_id.length + 1 + code.length + 2 + payload.length + 2 ≠
      my_id.length + code.length + payload.length + 2 + 1 + 1 + 2 + 2 + 2) from
      fun h => h (by omega))]
  have hdend : List.drop (5 + my_id.length + 1 + code.length + 2 + payload.length)
      (90 :: 90 :: F1 :: F2 :: my_id.length ::
        (my_id ++ code.length :: (code ++ (payload.length >>> 8 % 256) ::
          (payload.length % 256) :: (payload ++ [e1, e2])))) = [e1, e2] := by
    show List.drop (5 + my_id.length + 1 + code.length + 2 + payload.length)
        (([90, 90, F1, F2, my_id.length] : List Nat) ++
          (my_id ++ code.length :: (code ++ (payload.length >>> 8 % 256) ::
            (payload.length % 256) :: (payload ++ [e1, e2])))) = _
    rw [drop_append_exact _ _ _ (my_id.length + 1 + code.length + 2 + payload.length)
        (by simp; omega)]
    rw [drop_append_exact my_id _ _ (1 + code.length + 2 + payload.length) (by omega)]
    show List.drop (1 + code.length + 2 + payload.length)
        (([code.length] : List Nat) ++ (code ++ (payload.length >>> 8 % 256) ::
          (payload.length % 256) :: (payload ++ [e1, e2]))) = _
    rw [drop_append_exact _ _ _ (code.length + 2 + payload.length) (by simp; omega)]
    rw [drop_append_exact code _ _ (2 + payload.length) (by omega)]
    show List.drop (2 + payload.length)
        (([payload.length >>> 8 % 256, payload.length % 256] : List Nat) ++
          (payload ++ [e1, e2])) = _
    rw [drop_append_exact _ _ _ payload.length (by simp)]
    rw [drop_append_exact payload _ _ 0 (by omega)]
    rfl
  rw [hdend]
  have hxid : List.take my_id.length (List.drop 5
      (90 :: 90 :: F1 :: F2 :: my_id.length ::
        (my_id ++ code.length :: (code ++ (payload.length >>> 8 % 256) ::
          (payload.length % 256) :: (payload ++ [e1, e2]))))) = my_id := by
    show List.take my_id.length (List.drop 5
        (([90, 90, F1, F2, my_id.length] : List Nat) ++
          (my_id ++ code.length :: (code ++ (payload.length >>> 8 % 256) ::
            (payload.length % 256) :: (payload ++ [e1, e2]))))) = _
    rw [drop_append_exact _ _ _ 0 (by simp)]
    rw [List.drop_zero]
    exact List.take_left' rfl
  rw [hxid]
  have hxcode : List.take code.length (List.drop (5 + my_id.length + 1)
      (90 :: 90 :: F1 :: F2 :: my_id.length ::
        (my_id ++ code.length :: (code ++ (payload.length >>> 8 % 256) ::
          (payload.length % 256) :: (payload ++ [e1, e2]))))) = code := by
    show List.take code.length (List.drop (5 + my_id.length + 1)
        (([90, 90, F1, F2, my_id.length] : List Nat) ++
          (my_id ++ code.length :: (code ++ (payload.length >>> 8 % 256) ::
            (payload.length % 256) :: (payload ++ [e1, e2]))))) = _
    rw [drop_append_exact _ _ _ (my_id.length + 1) (by simp; omega)]
    rw [drop_append_exact my_id _ _ 1 (by omega)]
    show List.take code.length (List.drop 1
        (([code.length] : List Nat) ++ (code ++ (payload.length >>> 8 % 256) ::
          (payload.length % 256) :: (payload ++ [e1, e2])))) = _
    rw [drop_append_exact _ _ _ 0 (by simp)]
    rw [List.drop_zero]
    exact List.take_left' rfl
  rw [hxcode]
  have hxpl : List.take payload.length (List.drop (5 + my_id.length + 1 + code.length + 2)
      (90 :: 90 :: F1 :: F2 :: my_id.length ::
        (my_id ++ code.length :: (code ++ (payload.length >>> 8 % 256) ::
          (payload.length % 256) :: (payload ++ [e1, e2]))))) = payload := by
    show List.take payload.length (List.drop (5 + my_id.length + 1 + code.length + 2)
        (([90, 90, F1, F2, my_id.length] : List Nat) ++
          (my_id ++ code.length :: (code ++ (payload.length >>> 8 % 256) ::
            (payload.length % 256) :: (payload ++ [e1, e2]))))) = _
    rw [drop_append_exact _ _ _ (my_id.length + 1 + code.length + 2) (by simp; omega)]
    rw [drop_append_exact my_id _ _ (1 + code.length + 2) (by omega)]
    show List.take payload.length (List.drop (1 + code.length + 2)
        (([code.length] : List Nat) ++ (code ++ (payload.length >>> 8 % 256) ::
          (payload.length % 256) :: (payload ++ [e1, e2])))) = _
    rw [drop_append_exact _ _ _ (code.length + 2) (by simp; omega)]
    rw [drop_append_exact code _ _ 2 (by omega)]
    show List.take payload.length (List.drop 2
        (([payload.length >>> 8 % 256, payload.length % 256] : List Nat) ++
          (payload ++ [e1, e2]))) = _
    rw [drop_append_exact _ _ _ 0 (by simp)]
    rw [List.drop_zero]
    exact List.take_left' rfl
  rw [hxpl]
  have htk2 : List.take 2 ([e1, e2] : List Nat) = [e1, e2] := rfl
  rw [htk2]

/-! ## Claims C1 and C3 -/

/-- C1: codec round-trip.  For every code of at most 255 bytes and every
payload of at most 65535 bytes, decoding the byte stream produced by
`frame_message` yields exactly the same code and payload bytes back. -/
theorem C1_codec_round_trip (code payload : List Nat)
    (hc : code.length ≤ 255) (hp : payload.length ≤ 65535) :
    unframe_message (frame_message code payload) = .ok (code, payload) :=
  unframe_frame code payload hc hp

theorem C1_codec_round_trip_witness :
    (([83, 84, 65, 84] : List Nat).length ≤ 255 ∧ ([1, 2, 3] : List Nat).length ≤ 65535) ∧
    unframe_message (frame_message [83, 84, 65, 84] [1, 2, 3]) = .ok ([83, 84, 65, 84], [1, 2, 3]) :=
  ⟨⟨by decide, by decide⟩, C1_codec_round_trip [83, 84, 65, 84] [1, 2, 3] (by decide) (by decide)⟩

/-- C3: asymmetric sentinel policy of the frame decoders.  A start-sentinel
mismatch is recoverable: both `unframe_message` (simple-system) and
`receive` (simple-tokio) drop the header bytes they read and keep scanning
the rest of the stream — in particular a valid frame following garbage is
still decoded.  An end-sentinel mismatch after a matching start sentinel is
fatal: both decoders return the end-sentinel error. -/
theorem C3_asymmetric_sentinel_policy :
    (∀ (a b c : Nat) (rest : List Nat), ¬(a = 0x5A ∧ b = 0x5A) →
      unframe_message (a :: b :: c :: rest) = unframe_message rest) ∧
    (∀ (a b c : Nat) (code payload : List Nat), ¬(a = 0x5A ∧ b = 0x5A) →
      code.length ≤ 255 → payload.length ≤ 65535 →
      unframe_message (a :: b :: c :: frame_message code payload) = .ok (code, payload)) ∧
    (∀ (code payload : List Nat) (e1 e2 : Nat),
      code.length ≤ 255 → payload.length ≤ 65535 → [e1, e2] ≠ FRAME_END →
      unframe_message (FRAME_START ++ [code.length % 256] ++ code ++
        [(payload.length >>> 8) % 256, payload.length % 256] ++ payload ++ [e1, e2]) =
        .error .badEndSentinel) ∧
    (∀ (a b l1 l2 il : Nat) (rest : List Nat), ¬(a = 0x5A ∧ b = 0x5A) →
      receive (a :: b :: l1 :: l2 :: il :: rest) = receive rest) ∧
    (∀ (my_id code payload : List Nat) (e1 e2 : Nat),
      my_id.length ≤ 255 → code.length ≤ 255 →
      my_id.length + code.length + payload.length + 6 ≤ 65535 → [e1, e2] ≠ FRAME_END →
      receive (send_body my_id code payload ++ [e1, e2]) = .error .badEndSentinel) := by
  refine ⟨unframe_skip, ?_, ?_, receive_skip, ?_⟩
  · intro a b c code payload h hc hp
    rw [unframe_skip a b c _ h]
    exact unframe_frame code payload hc hp
  · intro code payload e1 e2 hc hp hne
    rw [unframe_body_end code payload e1 e2 hc hp, if_neg hne]
  · intro my_id code payload e1 e2 hid hc hfl hne
    rw [receive_send_body_end my_id code payload e1 e2 hid hc hfl, if_neg hne]

theorem C3_asymmetric_sentinel_policy_witness :
    unframe_message (0 :: 1 :: 2 :: frame_message [83] [7]) = .ok ([83], [7]) ∧
    unframe_message (FRAME_START ++ [([83] : List Nat).length % 256] ++ [83] ++
      [(([7] : List Nat).length >>> 8) % 256, ([7] : List Nat).length % 256] ++ [7] ++ [0, 0]) =
      .error .badEndSentinel ∧
    receive (send_body [77, 70] [83] [7] ++ [0, 0]) = .error .badEndSentinel :=
  ⟨C3_asymmetric_sentinel_policy.2.1 0 1 2 [83] [7] (by decide) (by decide) (by decide),
   C3_asymmetric_sentinel_policy.2.2.1 [83] [7] 0 0 (by decide) (by decide) (by decide),
   C3_asymmetric_sentinel_policy.2.2.2.2 [77, 70] [83] [7] 0 0
     (by decide) (by decide) (by decide) (by decide)⟩

/-! ## Register / flip-flop glow model (`simple-tokio/src/server/register.rs`)

The `f64` emulation ticks and `f32` glow intensities are embedded over
`ℚ`; the generic machine-integer type `T` is embedded as `Nat` (the
bitwise/shift/add operations of the source act identically).  The shared
`EmulationClock` is passed explicitly: every operation that reads the
clock takes the current tick as an argument. -/

def CLOCK_PERIOD : ℚ := 3 / 10000000

def LAMP_PERSISTENCE : ℚ := 1 / 30

structure Register where
  bits : Nat
  last_tick : ℚ
  mask : Nat
  power_mask : Nat
  sign_mask : Nat
  overflow : Bool
  value : Nat
  glow : List ℚ
deriving DecidableEq

/-- `Register::new(bits, clock)`; `initial_tick` is `clock.read()`. -/
def Register.new (bits : Nat) (initial_tick : ℚ) : Register :=
  { bits := bits
    last_tick := initial_tick
    mask := (1 <<< bits) - 1
    power_mask := 1 <<< bits
    sign_mask := 1 <<< (bits - 1)
    overflow := false
    value := 0
    glow := List.replicate bits 0 }

/-- The per-bit loop body of `Register::update_glow`: walk the glow
vector, testing the low bit of `v` and shifting `v` right each step. -/
def glow_step (alpha1 alpha : ℚ) : Nat → List ℚ → List ℚ
  | _, [] => []
  | v, g :: gs =>
    (if v &&& 1 = 0 then g * alpha1 else g * alpha1 + alpha) :: glow_step alpha1 alpha (v >>> 1) gs

/-- `Register::update_glow(beta)`; `this_tick` is `clock.read()`. -/
def Register.update_glow (r : Register) (this_tick beta : ℚ) : Register :=
  let elapsed := max (this_tick - r.last_tick) CLOCK_PERIOD
  let alpha := min (elapsed / LAMP_PERSISTENCE + beta) 1
  { r with last_tick := this_tick, glow := glow_step (1 - alpha) alpha r.value r.glow }

def Register.read (r : Register) : Nat := r.value

def Register.read_glow (r : Register) : List ℚ := r.glow

/-- `Register::set(value)`: mask, then `update_glow(0.0)`. -/
def Register.set (r : Register) (now : ℚ) (value : Nat) : Register :=
  ({ r with value := value &&& r.mask }).update_glow now 0

/-- `Register::add(value)`: record signed overflow when the operands have
equal sign bits and the raw sum's sign bit differs, mask the raw sum, then
`update_glow(0.0)`. -/
def Register.add (r : Register) (now : ℚ) (value : Nat) : Register :=
  let augend := r.value
  let result := augend + value
  let r1 := if augend &&& r.sign_mask = value &&& r.sign_mask ∧
               value &&& r.sign_mask ≠ result &&& r.sign_mask
            then { r with overflow := true } else r
  ({ r1 with value := result &&& r.mask }).update_glow now 0

/-- `Register::add_unsigned(value)`: record unsigned overflow when the
addend and the raw sum differ in the power-mask bit. -/
def Register.add_unsigned (r : Register) (now : ℚ) (value : Nat) : Register :=
  let augend := r.value
  let result := augend + value
  let r1 := if value &&& r.power_mask ≠ result &&& r.power_mask
            then { r with overflow := true } else r
  ({ r1 with value := result &&& r.mask }).update_glow now 0

/-- `Register::negate()`: `value = power_mask - value` (not masked!). -/
def Register.negate (r : Register) (now : ℚ) : Register :=
  ({ r with value := r.power_mask - r.value }).update_glow now 0

structure FlipFlop where
  last_tick : ℚ
  value : Bool
  glow : ℚ
deriving DecidableEq

def FlipFlop.new (initial_tick : ℚ) : FlipFlop :=
  { last_tick := initial_tick, value := false, glow := 0 }

/-- `FlipFlop::update_glow(beta)`; `this_tick` is `clock.read()`. -/
def FlipFlop.update_glow (f : FlipFlop) (this_tick beta : ℚ) : FlipFlop :=
  let elapsed := max (this_tick - f.last_tick) CLOCK_PERIOD
  let alpha := min (elapsed / LAMP_PERSISTENCE + beta) 1
  { f with last_tick := this_tick
           glow := if f.value then f.glow * (1 - alpha) + alpha else f.glow * (1 - alpha) }

def FlipFlop.read (f : FlipFlop) : Bool := f.value

def FlipFlop.read_glow (f : FlipFlop) : ℚ := f.glow

def FlipFlop.set (f : FlipFlop) (now : ℚ) (value : Bool) : FlipFlop :=
  ({ f with value := value }).update_glow now 0

/-! ## Glow lemmas -/

theorem register_update_glow_eq (r : Register) (t beta : ℚ) :
    r.update_glow t beta =
      { r with last_tick := t
               glow := glow_step
                 (1 - min (max (t - r.last_tick) CLOCK_PERIOD / LAMP_PERSISTENCE + beta) 1)
                 (min (max (t - r.last_tick) CLOCK_PERIOD / LAMP_PERSISTENCE + beta) 1)
                 r.value r.glow } := rfl

theorem flipflop_update_glow_eq (f : FlipFlop) (t beta : ℚ) :
    f.update_glow t beta =
      { f with last_tick := t
               glow := if f.value then
                   f.glow * (1 - min (max (t - f.last_tick) CLOCK_PERIOD / LAMP_PERSISTENCE + beta) 1)
                     + min (max (t - f.last_tick) CLOCK_PERIOD / LAMP_PERSISTENCE + beta) 1
                 else
                   f.glow * (1 - min (max (t - f.last_tick) CLOCK_PERIOD / LAMP_PERSISTENCE + beta) 1) } :=
  rfl

theorem elapsed_nonneg (last now : ℚ) : 0 ≤ max (now - last) CLOCK_PERIOD :=
  le_trans (by norm_num [CLOCK_PERIOD]) (le_max_right _ _)

theorem alpha_nonneg (last now beta : ℚ) (hb : 0 ≤ beta) :
    0 ≤ min (max (now - last) CLOCK_PERIOD / LAMP_PERSISTENCE + beta) 1 := by
  apply le_min
  · have h := elapsed_nonneg last now
    have : (0:ℚ) ≤ max (now - last) CLOCK_PERIOD / LAMP_PERSISTENCE :=
      div_nonneg h (by norm_num [LAMP_PERSISTENCE])
    linarith
  · norm_num

theorem alpha_le_one (last now beta : ℚ) :
    min (max (now - last) CLOCK_PERIOD / LAMP_PERSISTENCE + beta) 1 ≤ 1 :=
  min_le_right _ _

theorem alpha_snap (last now : ℚ) :
    min (max (now - last) CLOCK_PERIOD / LAMP_PERSISTENCE + 1) 1 = 1 := by
  apply min_eq_right
  have h := elapsed_nonneg last now
  have : (0:ℚ) ≤ max (now - last) CLOCK_PERIOD / LAMP_PERSISTENCE :=
    div_nonneg h (by norm_num [LAMP_PERSISTENCE])
  linarith

theorem glow_step_length (a1 a : ℚ) (v : Nat) (gs : List ℚ) :
    (glow_step a1 a v gs).length = gs.length := by
  induction gs generalizing v with
  | nil => rfl
  | cons g gs ih => simp [glow_step, ih]

theorem glow_step_getD (a1 a : ℚ) (v : Nat) (gs : List ℚ) (i : Nat) (h : i < gs.length) :
    (glow_step a1 a v gs).getD i 0 =
      if v.testBit i then gs.getD i 0 * a1 + a else gs.getD i 0 * a1 := by
  induction gs generalizing v i with
  | nil => simp at h
  | cons g gs ih =>
    cases i with
    | zero =>
      rcases Nat.mod_two_eq_zero_or_one v with h2 | h2 <;>
        simp [glow_step, Nat.and_one_is_mod, h2]
    | succ i =>
      have hi : i < gs.length := by simpa using h
      simp only [glow_step, List.getD_cons_succ]
      rw [ih (v >>> 1) i hi, Nat.testBit_shiftRight, Nat.add_comm 1 i]

theorem bit_decay_bounds (g a a1 : ℚ) (hg0 : 0 ≤ g) (hg1 : g ≤ 1)
    (ha : 0 ≤ a) (ha1 : 0 ≤ a1) (hs : a1 + a = 1) :
    0 ≤ g * a1 ∧ g * a1 ≤ g ∧ g ≤ g * a1 + a ∧ g * a1 + a ≤ 1 := by
  refine ⟨mul_nonneg hg0 ha1, ?_, ?_, ?_⟩ <;> nlinarith

theorem glow_step_mem_bounds (a1 a : ℚ) (ha : 0 ≤ a) (ha1 : 0 ≤ a1) (hs : a1 + a = 1)
    (v : Nat) (gs : List ℚ) (h : ∀ g ∈ gs, 0 ≤ g ∧ g ≤ 1) :
    ∀ g ∈ glow_step a1 a v gs, 0 ≤ g ∧ g ≤ 1 := by
  induction gs generalizing v with
  | nil => simp [glow_step]
  | cons g gs ih =>
    intro x hx
    rw [glow_step] at hx
    obtain ⟨hg0, hg1⟩ := h g (by simp)
    obtain ⟨h0, h1, h2, h3⟩ := bit_decay_bounds g a a1 hg0 hg1 ha ha1 hs
    rcases List.mem_cons.mp hx with hx | hx
    · subst hx
      rcases Nat.mod_two_eq_zero_or_one v with hb | hb <;>
        simp [Nat.and_one_is_mod, hb] <;> constructor <;> linarith
    · exact ih (v >>> 1) (fun y hy => h y (by simp [hy])) x hx

theorem getD_mem_of_lt (l : List ℚ) (i : Nat) (h : i < l.length) : l.getD i 0 ∈ l := by
  rw [List.getD_eq_getElem l 0 h]
  exact List.getElem_mem h

/-- C6: glow bounds and monotone convergence.  For a register or
flip-flop whose glow values lie in `[0,1]`, `update_glow(0.0)` keeps every
glow value in `[0,1]`, leaves the stored bit value unchanged, and moves
each glow value monotonically toward the corresponding bit: non-decreasing
when the bit is 1 and non-increasing when the bit is 0 — hence under
repeated calls each glow value converges monotonically toward the held
bit value. -/
theorem C6_glow_bounds_monotone :
    (∀ (r : Register) (now : ℚ), (∀ g ∈ r.glow, 0 ≤ g ∧ g ≤ 1) →
      (∀ g ∈ (r.update_glow now 0).glow, 0 ≤ g ∧ g ≤ 1) ∧
      (r.update_glow now 0).value = r.value ∧
      (∀ i, i < r.glow.length →
        (r.value.testBit i = true →
          r.glow.getD i 0 ≤ (r.update_glow now 0).glow.getD i 0) ∧
        (r.value.testBit i = false →
          (r.update_glow now 0).glow.getD i 0 ≤ r.glow.getD i 0))) ∧
    (∀ (f : FlipFlop) (now : ℚ), 0 ≤ f.glow → f.glow ≤ 1 →
      (0 ≤ (f.update_glow now 0).glow ∧ (f.update_glow now 0).glow ≤ 1) ∧
      (f.update_glow now 0).value = f.value ∧
      (f.value = true → f.glow ≤ (f.update_glow now 0).glow) ∧
      (f.value = false → (f.update_glow now 0).glow ≤ f.glow)) := by
  constructor
  · intro r now h
    rw [register_update_glow_eq, add_zero]
    have ha0 : 0 ≤ min (max (now - r.last_tick) CLOCK_PERIOD / LAMP_PERSISTENCE) 1 := by
      have := alpha_nonneg r.last_tick now 0 (le_refl 0)
      rwa [add_zero] at this
    have ha1 : min (max (now - r.last_tick) CLOCK_PERIOD / LAMP_PERSISTENCE) 1 ≤ 1 :=
      min_le_right _ _
    refine ⟨glow_step_mem_bounds _ _ ha0 (by linarith) (by ring) r.value r.glow h, rfl, ?_⟩
    intro i hi
    obtain ⟨hg0, hg1⟩ := h (r.glow.getD i 0) (getD_mem_of_lt r.glow i hi)
    obtain ⟨h0, h1, h2, h3⟩ := bit_decay_bounds (r.glow.getD i 0)
      (min (max (now - r.last_tick) CLOCK_PERIOD / LAMP_PERSISTENCE) 1)
      (1 - min (max (now - r.last_tick) CLOCK_PERIOD / LAMP_PERSISTENCE) 1)
      hg0 hg1 ha0 (by linarith) (by ring)
    constructor <;> intro hbit <;> rw [glow_step_getD _ _ r.value r.glow i hi, hbit]
    · rw [if_pos rfl]; exact h2
    · rw [if_neg (by simp)]; exact h1
  · intro f now hg0 hg1
    rw [flipflop_update_glow_eq, add_zero]
    have ha0 : 0 ≤ min (max (now - f.last_tick) CLOCK_PERIOD / LAMP_PERSISTENCE) 1 := by
      have := alpha_nonneg f.last_tick now 0 (le_refl 0)
      rwa [add_zero] at this
    have ha1 : min (max (now - f.last_tick) CLOCK_PERIOD / LAMP_PERSISTENCE) 1 ≤ 1 :=
      min_le_right _ _
    obtain ⟨h0, h1, h2, h3⟩ := bit_decay_bounds f.glow
      (min (max (now - f.last_tick) CLOCK_PERIOD / LAMP_PERSISTENCE) 1)
      (1 - min (max (now - f.last_tick) CLOCK_PERIOD / LAMP_PERSISTENCE) 1)
      hg0 hg1 ha0 (by linarith) (by ring)
    refine ⟨?_, rfl, ?_, ?_⟩
    · cases hv : f.value
      · rw [if_neg (by simp)]
        exact ⟨h0, by linarith⟩
      · rw [if_pos rfl]
        exact ⟨by linarith, h3⟩
    · intro hv; rw [hv, if_pos rfl]; exact h2
    · intro hv; rw [hv, if_neg (by simp)]; exact h1

theorem C6_glow_bounds_monotone_witness :
    (∀ g ∈ (Register.new 4 0).glow, 0 ≤ g ∧ g ≤ 1) ∧
    (∀ g ∈ ((Register.new 4 0).update_glow 1 0).glow, 0 ≤ g ∧ g ≤ 1) :=
  ⟨by decide, (C6_glow_bounds_monotone.1 (Register.new 4 0) 1 (by decide)).1⟩

theorem register_snap (r : Register) (now : ℚ) :
    (r.update_glow now 1).glow.length = r.glow.length ∧
    ∀ i, i < r.glow.length →
      (r.update_glow now 1).glow.getD i 0 = if r.value.testBit i then 1 else 0 := by
  rw [register_update_glow_eq]
  rw [alpha_snap r.last_tick now]
  refine ⟨glow_step_length _ _ _ _, ?_⟩
  intro i hi
  rw [glow_step_getD _ _ r.value r.glow i hi]
  by_cases hb : r.value.testBit i <;> simp [hb]

theorem flipflop_snap (f : FlipFlop) (now : ℚ) :
    (f.update_glow now 1).glow = if f.value then 1 else 0 := by
  rw [flipflop_update_glow_eq]
  rw [alpha_snap f.last_tick now]
  cases hv : f.value <;> simp [hv]

/-- C7: glow snap.  `update_glow(1.0)` sets each bit's glow to exactly 1
when the bit is 1 and exactly 0 when the bit is 0, for any elapsed virtual
time, for registers and flip-flops alike. -/
theorem C7_glow_snap :
    (∀ (r : Register) (now : ℚ),
      ((r.update_glow now 1).glow.length = r.glow.length ∧
       ∀ i, i < r.glow.length →
         (r.update_glow now 1).glow.getD i 0 = if r.value.testBit i then 1 else 0)) ∧
    (∀ (f : FlipFlop) (now : ℚ),
      (f.update_glow now 1).glow = if f.value then 1 else 0) :=
  ⟨register_snap, flipflop_snap⟩

theorem C7_glow_snap_witness :
    (((Register.new 4 0).set 0 5).update_glow 2 1).glow.getD 0 0 = 1 := by
  have h := (C7_glow_snap.1 ((Register.new 4 0).set 0 5) 2).2 0 (by decide)
  simpa using h

/-! ## Register operation sequences and invariants -/

theorem Register.update_glow_length (r : Register) (t b : ℚ) :
    (r.update_glow t b).glow.length = r.glow.length := by
  rw [register_update_glow_eq]
  exact glow_step_length _ _ _ _

theorem Register.set_fields (r : Register) (t : ℚ) (v : Nat) :
    (r.set t v).mask = r.mask ∧ (r.set t v).power_mask = r.power_mask ∧
    (r.set t v).sign_mask = r.sign_mask ∧ (r.set t v).bits = r.bits ∧
    (r.set t v).value = v &&& r.mask ∧
    (r.set t v).glow.length = r.glow.length := by
  exact ⟨rfl, rfl, rfl, rfl, rfl, Register.update_glow_length _ _ _⟩

theorem Register.add_fields (r : Register) (t : ℚ) (v : Nat) :
    (r.add t v).mask = r.mask ∧ (r.add t v).power_mask = r.power_mask ∧
    (r.add t v).sign_mask = r.sign_mask ∧ (r.add t v).bits = r.bits ∧
    (r.add t v).value = (r.value + v) &&& r.mask ∧
    (r.add t v).glow.length = r.glow.length := by
  unfold Register.add
  dsimp only
  split <;> exact ⟨rfl, rfl, rfl, rfl, rfl, Register.update_glow_length _ _ _⟩

theorem Register.add_unsigned_fields (r : Register) (t : ℚ) (v : Nat) :
    (r.add_unsigned t v).mask = r.mask ∧ (r.add_unsigned t v).power_mask = r.power_mask ∧
    (r.add_unsigned t v).sign_mask = r.sign_mask ∧ (r.add_unsigned t v).bits = r.bits ∧
    (r.add_unsigned t v).value = (r.value + v) &&& r.mask ∧
    (r.add_unsigned t v).glow.length = r.glow.length := by
  unfold Register.add_unsigned
  dsimp only
  split <;> exact ⟨rfl, rfl, rfl, rfl, rfl, Register.update_glow_length _ _ _⟩

theorem Register.negate_fields (r : Register) (t : ℚ) :
    (r.negate t).mask = r.mask ∧ (r.negate t).power_mask = r.power_mask ∧
    (r.negate t).sign_mask = r.sign_mask ∧ (r.negate t).bits = r.bits ∧
    (r.negate t).value = r.power_mask - r.value ∧
    (r.negate t).glow.length = r.glow.length := by
  exact ⟨rfl, rfl, rfl, rfl, rfl, Register.update_glow_length _ _ _⟩

/-- One operation of the sequence, paired with the tick at which the
shared clock stands when the operation runs. -/
inductive RegOp where
  | rset (v : Nat)
  | radd (v : Nat)
  | raddu (v : Nat)
  | rneg
deriving DecidableEq

def applyOp (r : Register) (p : RegOp × ℚ) : Register :=
  match p.1 with
  | .rset v => r.set p.2 v
  | .radd v => r.add p.2 v
  | .raddu v => r.add_unsigned p.2 v
  | .rneg => r.negate p.2

def applyOps (r : Register) (ops : List (RegOp × ℚ)) : Register :=
  ops.foldl applyOp r

/-- Every `negate` in the sequence runs on a register holding a nonzero
value. -/
def negSafe : Register → List (RegOp × ℚ) → Prop
  | _, [] => True
  | r, p :: rest => (p.1 = .rneg → r.value ≠ 0) ∧ negSafe (applyOp r p) rest

def negSafeDec : (r : Register) → (l : List (RegOp × ℚ)) → Decidable (negSafe r l)
  | _, [] => isTrue trivial
  | r, p :: rest =>
    have : Decidable (negSafe (applyOp r p) rest) := negSafeDec _ _
    inferInstanceAs (Decidable (_ ∧ _))

instance (r : Register) (l : List (RegOp × ℚ)) : Decidable (negSafe r l) := negSafeDec r l

/-- Structural well-formedness of a width-`n` register, as established by
the constructor. -/
def WF (n : Nat) (r : Register) : Prop :=
  r.bits = n ∧ r.mask = 2 ^ n - 1 ∧ r.power_mask = 2 ^ n ∧
  r.glow.length = n ∧ r.value < 2 ^ n

theorem wf_new (n : Nat) (t0 : ℚ) : WF n (Register.new n t0) := by
  refine ⟨rfl, ?_, ?_, ?_, ?_⟩
  · show (1 <<< n) - 1 = 2 ^ n - 1
    rw [Nat.shiftLeft_eq, one_mul]
  · show (1 <<< n) = 2 ^ n
    rw [Nat.shiftLeft_eq, one_mul]
  · exact List.length_replicate _ _
  · exact Nat.pos_pow_of_pos n (by norm_num)

theorem masked_lt (n x : Nat) : x &&& (2 ^ n - 1) < 2 ^ n := by
  rw [Nat.and_pow_two_sub_one_eq_mod]
  exact Nat.mod_lt _ (Nat.pos_pow_of_pos n (by norm_num))

theorem wf_set (n : Nat) (r : Register) (t : ℚ) (v : Nat) (h : WF n r) :
    WF n (r.set t v) := by
  obtain ⟨hb, hm, hp, hg, hv⟩ := h
  obtain ⟨f1, f2, f3, f4, f5, f6⟩ := Register.set_fields r t v
  exact ⟨f4.trans hb, f1.trans hm, f2.trans hp, f6.trans hg, by rw [f5, hm]; exact masked_lt n v⟩

theorem wf_add (n : Nat) (r : Register) (t : ℚ) (v : Nat) (h : WF n r) :
    WF n (r.add t v) := by
  obtain ⟨hb, hm, hp, hg, hv⟩ := h
  obtain ⟨f1, f2, f3, f4, f5, f6⟩ := Register.add_fields r t v
  exact ⟨f4.trans hb, f1.trans hm, f2.trans hp, f6.trans hg,
    by rw [f5, hm]; exact masked_lt n _⟩

theorem wf_add_unsigned (n : Nat) (r : Register) (t : ℚ) (v : Nat) (h : WF n r) :
    WF n (r.add_unsigned t v) := by
  obtain ⟨hb, hm, hp, hg, hv⟩ := h
  obtain ⟨f1, f2, f3, f4, f5, f6⟩ := Register.add_unsigned_fields r t v
  exact ⟨f4.trans hb, f1.trans hm, f2.trans hp, f6.trans hg,
    by rw [f5, hm]; exact masked_lt n _⟩

theorem wf_negate (n : Nat) (r : Register) (t : ℚ) (h : WF n r) (hnz : r.value ≠ 0) :
    WF n (r.negate t) := by
  obtain ⟨hb, hm, hp, hg, hv⟩ := h
  obtain ⟨f1, f2, f3, f4, f5, f6⟩ := Register.negate_fields r t
  refine ⟨f4.trans hb, f1.trans hm, f2.trans hp, f6.trans hg, ?_⟩
  rw [f5, hp]
  exact Nat.sub_lt (Nat.pos_pow_of_pos n (by norm_num)) (Nat.pos_of_ne_zero hnz)

theorem wf_applyOps (n : Nat) : ∀ (ops : List (RegOp × ℚ)) (r : Register),
    WF n r → negSafe r ops → WF n (applyOps r ops) := by
  intro ops
  induction ops with
  | nil => intro r h _; exact h
  | cons p rest ih =>
    intro r h hsafe
    obtain ⟨hhead, htail⟩ := hsafe
    refine ih (applyOp r p) ?_ htail
    match hp : p.1 with
    | .rset v => rw [applyOp, hp]; exact wf_set n r p.2 v h
    | .radd v => rw [applyOp, hp]; exact wf_add n r p.2 v h
    | .raddu v => rw [applyOp, hp]; exact wf_add_unsigned n r p.2 v h
    | .rneg => rw [applyOp, hp]; exact wf_negate n r p.2 h (hhead hp)

/-- Glow length is preserved by every operation regardless of values. -/
theorem len_applyOps (n : Nat) : ∀ (ops : List (RegOp × ℚ)) (r : Register),
    r.glow.length = n → (applyOps r ops).glow.length = n := by
  intro ops
  induction ops with
  | nil => intro r h; exact h
  | cons p rest ih =>
    intro r h
    refine ih (applyOp r p) ?_
    match hp : p.1 with
    | .rset v => rw [applyOp, hp]; exact (Register.set_fields r p.2 v).2.2.2.2.2.trans h
    | .radd v => rw [applyOp, hp]; exact (Register.add_fields r p.2 v).2.2.2.2.2.trans h
    | .raddu v =>
      rw [applyOp, hp]; exact (Register.add_unsigned_fields r p.2 v).2.2.2.2.2.trans h
    | .rneg => rw [applyOp, hp]; exact (Register.negate_fields r p.2).2.2.2.2.2.trans h

/-! ## Claims C2, C8, C9 -/

/-- C2 (amended): for every register constructed with bit width `n` in
1..63, after any sequence of `set`, `add`, `add_unsigned` and `negate`
the glow array length always equals `n`; and the stored value equals
`value &&& mask` provided every `negate` of the sequence runs on a
register holding a nonzero value.  (As originally stated — for arbitrary
sequences — the value invariant fails, because `negate` stores
`power_mask - value` without masking: negating a zero register stores
`power_mask` itself, which exceeds the mask; see the counterexample.) -/
theorem C2_register_invariants (n : Nat) (t0 : ℚ) (ops : List (RegOp × ℚ))
    (h1 : 1 ≤ n) (h63 : n ≤ 63) :
    (applyOps (Register.new n t0) ops).glow.length = n ∧
    (negSafe (Register.new n t0) ops →
      (applyOps (Register.new n t0) ops).value &&&
        (applyOps (Register.new n t0) ops).mask =
        (applyOps (Register.new n t0) ops).value) := by
  constructor
  · exact len_applyOps n ops _ (wf_new n t0).2.2.2.1
  · intro hsafe
    obtain ⟨hb, hm, hp, hg, hv⟩ := wf_applyOps n ops _ (wf_new n t0) hsafe
    rw [hm, Nat.and_pow_two_sub_one_eq_mod]
    exact Nat.mod_eq_of_lt hv

/-- C2 counterexample to the claim as stated: a width-4 register is
constructed (value 0) and `negate` is applied once; the stored value is
then `power_mask = 16`, and `16 &&& mask = 0 ≠ 16`: the invariant
`value = value &&& mask` is violated. -/
theorem C2_register_invariants_counterexample :
    ¬((applyOps (Register.new 4 0) [(RegOp.rneg, 0)]).value &&&
      (applyOps (Register.new 4 0) [(RegOp.rneg, 0)]).mask =
      (applyOps (Register.new 4 0) [(RegOp.rneg, 0)]).value) := by
  decide

theorem C2_register_invariants_witness :
    (applyOps (Register.new 4 0) [(RegOp.rset 5, 0), (RegOp.rneg, 1)]).glow.length = 4 ∧
    (applyOps (Register.new 4 0) [(RegOp.rset 5, 0), (RegOp.rneg, 1)]).value &&&
      (applyOps (Register.new 4 0) [(RegOp.rset 5, 0), (RegOp.rneg, 1)]).mask =
      (applyOps (Register.new 4 0) [(RegOp.rset 5, 0), (RegOp.rneg, 1)]).value :=
  ⟨(C2_register_invariants 4 0 [(RegOp.rset 5, 0), (RegOp.rneg, 1)] (by decide) (by decide)).1,
   (C2_register_invariants 4 0 [(RegOp.rset 5, 0), (RegOp.rneg, 1)]
     (by decide) (by decide)).2 (by decide)⟩

/-- C8: overflow detection.  `add` assigns the overflow flag exactly when
the current value and the addend have equal sign bits and the raw sum's
sign bit differs from the addend's; `add_unsigned` assigns it exactly when
the addend and the raw sum differ in the power-mask bit; in both cases the
flag is advisory — the masked sum is stored and the operation is total,
never an error. -/
theorem C8_overflow_detection (r : Register) (now : ℚ) (v : Nat) :
    ((r.add now v).overflow = true ↔
      r.overflow = true ∨ (r.value &&& r.sign_mask = v &&& r.sign_mask ∧
        v &&& r.sign_mask ≠ (r.value + v) &&& r.sign_mask)) ∧
    ((r.add_unsigned now v).overflow = true ↔
      r.overflow = true ∨ v &&& r.power_mask ≠ (r.value + v) &&& r.power_mask) ∧
    (r.add now v).value = (r.value + v) &&& r.mask ∧
    (r.add_unsigned now v).value = (r.value + v) &&& r.mask := by
  refine ⟨?_, ?_, (Register.add_fields r now v).2.2.2.2.1,
    (Register.add_unsigned_fields r now v).2.2.2.2.1⟩
  · unfold Register.add
    dsimp only
    split
    · rename_i hcond
      simp [register_update_glow_eq, hcond]
    · rename_i hcond
      simp [register_update_glow_eq, hcond]
  · unfold Register.add_unsigned
    dsimp only
    split
    · rename_i hcond
      simp [register_update_glow_eq, hcond]
    · rename_i hcond
      simp [register_update_glow_eq, hcond]

theorem C8_overflow_detection_witness :
    (((Register.new 4 0).set 0 5).add 0 6).overflow = true :=
  (C8_overflow_detection ((Register.new 4 0).set 0 5) 0 6).1.mpr
    (Or.inr ⟨by decide, by decide⟩)

/-- C9: set/read postcondition.  For every width `n` and value `v`,
`set v` followed by `read` returns `v &&& mask`, where `mask` is the
`n`-bit all-ones mask `2^n - 1` derived at construction. -/
theorem C9_set_read (n : Nat) (t0 now : ℚ) (v : Nat) :
    ((Register.new n t0).set now v).read = v &&& (2 ^ n - 1) ∧
    (Register.new n t0).mask = 2 ^ n - 1 := by
  constructor
  · show v &&& ((1 <<< n) - 1) = v &&& (2 ^ n - 1)
    rw [Nat.shiftLeft_eq, one_mul]
  · show (1 <<< n) - 1 = 2 ^ n - 1
    rw [Nat.shiftLeft_eq, one_mul]

theorem C9_set_read_witness :
    ((Register.new 4 0).set 0 23).read = 23 &&& (2 ^ 4 - 1) ∧
    (Register.new 4 0).mask = 2 ^ 4 - 1 :=
  C9_set_read 4 0 0 23

/-! ## Server dispatch (`simple-tokio/src/server.rs`)

The shared `ServerState` is embedded as a pure record; the shared
`EmulationClock` behind the `Arc` becomes the `eclock` field, and the
messages sent to the client are collected as the second component of each
handler's result.  Payloads arrive already deserialized (`bincode` of a
`bool` / `f32` is embedded as the value itself). -/

/-- Messages from the server to the panel client, as sent by
`send_status`. -/
inductive OutMsg where
  | power (b : Bool)
  | nopro (b : Bool)
  | manl (b : Bool)
  | reset (b : Bool)
  | pltmn (b : Bool)
  | xfer (g : ℚ)
  | ac (g : ℚ)
  | error (g : ℚ)
  | tag (g : ℚ)
  | thold (g : ℚ)
  | bspar (g : ℚ)
  | busy (g : ℚ)
  | a (gs : List ℚ)
  | estat
deriving DecidableEq

/-- Messages from the panel client handled by `panel_receiver`. -/
inductive InMsg where
  | stat
  | init
  | clear
  | reset
  | shut
  | manl (b : Bool)
  | pltmn (b : Bool)
  | nopro (b : Bool)
  | power (b : Bool)
deriving DecidableEq

structure ServerState where
  last_clock : ℚ
  eclock : ℚ
  reset_countdown : Nat
  power_on : Bool
  no_protn : Bool
  plotter_manual : Bool
  manual_state : Bool
  reset_state : Bool
  transfer_glow : ℚ
  air_cond_glow : ℚ
  error_glow : ℚ
  tag_glow : ℚ
  type_hold_glow : ℚ
  bs_parity_glow : ℚ
  busy_ff : FlipFlop
  a_reg : Register
deriving DecidableEq

/-- `send_status` from `simple-tokio/src/server.rs`: the full telemetry
snapshot, terminated by the `ESTAT` end marker. -/
def send_status (s : ServerState) : List OutMsg :=
  [.power s.power_on, .nopro s.no_protn, .manl s.manual_state, .reset s.reset_state,
   .pltmn s.plotter_manual, .xfer s.transfer_glow, .ac s.air_cond_glow,
   .error s.error_glow, .tag s.tag_glow, .thold s.type_hold_glow,
   .bspar s.bs_parity_glow, .busy s.busy_ff.read_glow, .a s.a_reg.read_glow, .estat]

/-- `change_power` from `simple-tokio/src/server.rs`. -/
def change_power (s : ServerState) (on_off : Bool) : ServerState × List OutMsg :=
  if s.power_on.xor on_off then
    let s1 := { s with power_on := on_off
                       manual_state := false
                       plotter_manual := false
                       no_protn := false
                       reset_state := false
                       transfer_glow := 0
                       air_cond_glow := 0
                       error_glow := 0
                       tag_glow := 0
                       type_hold_glow := 0
                       bs_parity_glow := 0 }
    let s2 := { s1 with busy_ff := s1.busy_ff.set s1.eclock false }
    let s3 := if on_off then { s2 with a_reg := s2.a_reg.add s2.eclock 7654321 }
              else { s2 with a_reg := s2.a_reg.set s2.eclock 0 }
    let s4 := { s3 with eclock := s3.eclock + 1000000 }
    let s5 := { s4 with a_reg := s4.a_reg.update_glow s4.eclock 1 }
    let s6 := { s5 with busy_ff := s5.busy_ff.update_glow s5.eclock 1 }
    (s6, send_status s6)
  else (s, [])

/-- The per-message dispatch of `panel_receiver` (state change plus the
frames sent while holding the lock). -/
def dispatch (s : ServerState) (m : InMsg) : ServerState × List OutMsg :=
  match m with
  | .stat =>
    let s1 := if s.reset_countdown > 0 then
        (let c := s.reset_countdown - 1
         if c = 0 then { s with reset_countdown := c, reset_state := false }
         else { s with reset_countdown := c })
      else s
    (s1, send_status s1)
  | .init => (s, [])
  | .clear => ({ s with a_reg := s.a_reg.set s.eclock 0 }, [])
  | .reset => ({ s with reset_state := true, reset_countdown := 15 }, [])
  | .manl b => ({ s with manual_state := b }, [])
  | .pltmn b => ({ s with plotter_manual := b }, [])
  | .nopro b => ({ s with no_protn := b }, [])
  | .power b => change_power s b
  | .shut => (s, [])

/-- The state transition of one `STAT` poll. -/
def statStep (s : ServerState) : ServerState := (dispatch s .stat).1

/-- The server state built by `main` in `simple-tokio/src/server.rs`:
everything off/zero, a 30-bit `a_reg` seeded to 1234567 by `set`. -/
def boot_state : ServerState :=
  { last_clock := 0
    eclock := 0
    reset_countdown := 0
    power_on := false
    no_protn := false
    plotter_manual := false
    manual_state := false
    reset_state := false
    transfer_glow := 0
    air_cond_glow := 0
    error_glow := 0
    tag_glow := 0
    type_hold_glow := 0
    bs_parity_glow := 0
    busy_ff := FlipFlop.new 0
    a_reg := (Register.new 30 0).set 0 1234567 }

/-! ## Claims C10 and C5 -/

/-- C10: POWER no-op on equal state.  When the requested power state
equals the current one, `change_power` leaves the server state unchanged
and sends no frames. -/
theorem C10_power_noop (s : ServerState) (on_off : Bool) (h : on_off = s.power_on) :
    change_power s on_off = (s, []) := by
  subst h
  simp [change_power]

theorem C10_power_noop_witness : change_power boot_state false = (boot_state, []) :=
  C10_power_noop boot_state false (by decide)

theorem statStep_decrement (s : ServerState) (h : 1 < s.reset_countdown) :
    (statStep s).reset_state = s.reset_state ∧
    (statStep s).reset_countdown = s.reset_countdown - 1 := by
  unfold statStep dispatch
  dsimp only
  rw [if_pos (by omega : s.reset_countdown > 0)]
  rw [if_neg (by omega : ¬(s.reset_countdown - 1 = 0))]
  exact ⟨rfl, rfl⟩

theorem statStep_expire (s : ServerState) (h : s.reset_countdown = 1) :
    (statStep s).reset_state = false ∧ (statStep s).reset_countdown = 0 := by
  unfold statStep dispatch
  dsimp only
  rw [if_pos (by omega : s.reset_countdown > 0)]
  rw [if_pos (by omega : s.reset_countdown - 1 = 0)]
  exact ⟨rfl, by dsimp only; omega⟩

theorem statStep_iterate (k : Nat) : ∀ (s : ServerState), k < s.reset_countdown →
    (statStep^[k] s).reset_state = s.reset_state ∧
    (statStep^[k] s).reset_countdown = s.reset_countdown - k := by
  induction k with
  | zero => intro s _; simp
  | succ k ih =>
    intro s h
    rw [Function.iterate_succ_apply]
    obtain ⟨hs, hc⟩ := statStep_decrement s (by omega)
    obtain ⟨ihs, ihc⟩ := ih (statStep s) (by omega)
    exact ⟨ihs.trans hs, by rw [ihc, hc]; omega⟩

/-- C5: RESET self-expiry.  Processing RESET sets `reset_state` and arms
a countdown of 15; each subsequent STAT decrements the armed countdown;
`reset_state` is still true after fewer than 15 subsequent STATs, and
after exactly 15 subsequent STATs it is false, with no further client
input. -/
theorem C5_reset_self_expiry (s : ServerState) :
    (dispatch s .reset).1.reset_state = true ∧
    (dispatch s .reset).1.reset_countdown = 15 ∧
    (∀ k, k ≤ 15 →
      (statStep^[k] (dispatch s .reset).1).reset_countdown = 15 - k) ∧
    (∀ k, k < 15 → (statStep^[k] (dispatch s .reset).1).reset_state = true) ∧
    (statStep^[15] (dispatch s .reset).1).reset_state = false := by
  refine ⟨rfl, rfl, ?_, ?_, ?_⟩
  · intro k hk
    rcases Nat.lt_or_ge k 15 with hlt | hge
    · exact (statStep_iterate k (dispatch s .reset).1 hlt).2
    · have h15 : k = 15 := by omega
      subst h15
      rw [show (15 : Nat) = 14 + 1 from rfl, Function.iterate_succ_apply']
      obtain ⟨h14s, h14c⟩ := statStep_iterate 14 (dispatch s .reset).1
        (by show (14:Nat) < 15; omega)
      exact (statStep_expire (statStep^[14] (dispatch s .reset).1)
        (by rw [h14c]; show (15:Nat) - 14 = 1; rfl)).2.trans (by omega)
  · intro k hk
    exact (statStep_iterate k (dispatch s .reset).1 hk).1
  · rw [show (15 : Nat) = 14 + 1 from rfl, Function.iterate_succ_apply']
    obtain ⟨h14s, h14c⟩ := statStep_iterate 14 (dispatch s .reset).1
      (by show (14:Nat) < 15; omega)
    exact (statStep_expire (statStep^[14] (dispatch s .reset).1) (by rw [h14c]; show (15:Nat) - 14 = 1; rfl)).1

theorem C5_reset_self_expiry_witness :
    (statStep^[3] (dispatch boot_state .reset).1).reset_state = true ∧
    (statStep^[15] (dispatch boot_state .reset).1).reset_state = false :=
  ⟨(C5_reset_self_expiry boot_state).2.2.2.1 3 (by decide),
   (C5_reset_self_expiry boot_state).2.2.2.2⟩

/-! ## Claim C4 -/

/-- C4: POWER transition.  When the requested state differs from
`power_on`, `change_power` sets `power_on` to the request, resets the
four toggle booleans, zeroes the six lamp glow fields, snaps the busy
flip-flop (set to false) and the `A` register glow via `update_glow` with
`beta = 1.0`, seeds the primary register by adding the fixed demo
constant 7654321 (under the mask) on power-on and zeroes it on power-off,
advances the shared clock by the fixed delta 1e6, and immediately sends
the full status snapshot of the new state. -/
theorem C4_power_transition (s : ServerState) (b : Bool) (h : b ≠ s.power_on) :
    ((change_power s b).1.power_on = b ∧
     (change_power s b).1.manual_state = false ∧
     (change_power s b).1.plotter_manual = false ∧
     (change_power s b).1.no_protn = false ∧
     (change_power s b).1.reset_state = false) ∧
    ((change_power s b).1.transfer_glow = 0 ∧
     (change_power s b).1.air_cond_glow = 0 ∧
     (change_power s b).1.error_glow = 0 ∧
     (change_power s b).1.tag_glow = 0 ∧
     (change_power s b).1.type_hold_glow = 0 ∧
     (change_power s b).1.bs_parity_glow = 0) ∧
    (change_power s b).1.eclock = s.eclock + 1000000 ∧
    ((change_power s b).1.busy_ff.value = false ∧
     (change_power s b).1.busy_ff.glow = 0) ∧
    ((change_power s b).1.a_reg.glow.length = s.a_reg.glow.length ∧
     (∀ i, i < s.a_reg.glow.length →
       (change_power s b).1.a_reg.glow.getD i 0 =
         if (change_power s b).1.a_reg.value.testBit i then 1 else 0) ∧
     (b = true → (change_power s b).1.a_reg.value =
       (s.a_reg.value + 7654321) &&& s.a_reg.mask) ∧
     (b = false → (change_power s b).1.a_reg.value = 0)) ∧
    (change_power s b).2 = send_status (change_power s b).1 := by
  cases b with
  | false =>
    have hp : s.power_on = true := by revert h; cases s.power_on <;> simp
    have hcp : change_power s false =
        ({ s with power_on := false
                  manual_state := false
                  plotter_manual := false
                  no_protn := false
                  reset_state := false
                  transfer_glow := 0
                  air_cond_glow := 0
                  error_glow := 0
                  tag_glow := 0
                  type_hold_glow := 0
                  bs_parity_glow := 0
                  eclock := s.eclock + 1000000
                  busy_ff := (s.busy_ff.set s.eclock false).update_glow (s.eclock + 1000000) 1
                  a_reg := (s.a_reg.set s.eclock 0).update_glow (s.eclock + 1000000) 1 },
         send_status
          { s with power_on := false
                   manual_state := false
                   plotter_manual := false
                   no_protn := false
                   reset_state := false
                   transfer_glow := 0
                   air_cond_glow := 0
                   error_glow := 0
                   tag_glow := 0
                   type_hold_glow := 0
                   bs_parity_glow := 0
                   eclock := s.eclock + 1000000
                   busy_ff := (s.busy_ff.set s.eclock false).update_glow (s.eclock + 1000000) 1
                   a_reg := (s.a_reg.set s.eclock 0).update_glow (s.eclock + 1000000) 1 }) := by
      unfold change_power
      rw [hp]
      rfl
    rw [hcp]
    refine ⟨⟨rfl, rfl, rfl, rfl, rfl⟩, ⟨rfl, rfl, rfl, rfl, rfl, rfl⟩, rfl, ⟨rfl, ?_⟩,
      ⟨?_, ?_, ?_, ?_⟩, rfl⟩
    · rw [flipflop_snap]
      rfl
    · exact (register_snap _ _).1.trans (Register.set_fields s.a_reg s.eclock 0).2.2.2.2.2
    · intro i hi
      have hi' : i < (s.a_reg.set s.eclock 0).glow.length := by
        rw [(Register.set_fields s.a_reg s.eclock 0).2.2.2.2.2]
        exact hi
      exact (register_snap (s.a_reg.set s.eclock 0) (s.eclock + 1000000)).2 i hi'
    · intro h'
      exact Bool.noConfusion h'
    · intro _
      exact Nat.zero_and _
  | true =>
    have hp : s.power_on = false := by revert h; cases s.power_on <;> simp
    have hcp : change_power s true =
        ({ s with power_on := true
                  manual_state := false
                  plotter_manual := false
                  no_protn := false
                  reset_state := false
                  transfer_glow := 0
                  air_cond_glow := 0
                  error_glow := 0
                  tag_glow := 0
                  type_hold_glow := 0
                  bs_parity_glow := 0
                  eclock := s.eclock + 1000000
                  busy_ff := (s.busy_ff.set s.eclock false).update_glow (s.eclock + 1000000) 1
                  a_reg := (s.a_reg.add s.eclock 7654321).update_glow (s.eclock + 1000000) 1 },
         send_status
          { s with power_on := true
                   manual_state := false
                   plotter_manual := false
                   no_protn := false
                   reset_state := false
                   transfer_glow := 0
                   air_cond_glow := 0
                   error_glow := 0
                   tag_glow := 0
                   type_hold_glow := 0
                   bs_parity_glow := 0
                   eclock := s.eclock + 1000000
                   busy_ff := (s.busy_ff.set s.eclock false).update_glow (s.eclock + 1000000) 1
                   a_reg := (s.a_reg.add s.eclock 7654321).update_glow (s.eclock + 1000000) 1 }) := by
      unfold change_power
      rw [hp]
      rfl
    rw [hcp]
    refine ⟨⟨rfl, rfl, rfl, rfl, rfl⟩, ⟨rfl, rfl, rfl, rfl, rfl, rfl⟩, rfl, ⟨rfl, ?_⟩,
      ⟨?_, ?_, ?_, ?_⟩, rfl⟩
    · rw [flipflop_snap]
      rfl
    · exact (register_snap _ _).1.trans (Register.add_fields s.a_reg s.eclock 7654321).2.2.2.2.2
    · intro i hi
      have hi' : i < (s.a_reg.add s.eclock 7654321).glow.length := by
        rw [(Register.add_fields s.a_reg s.eclock 7654321).2.2.2.2.2]
        exact hi
      exact (register_snap (s.a_reg.add s.eclock 7654321) (s.eclock + 1000000)).2 i hi'
    · intro _
      rfl
    · intro h'
      exact Bool.noConfusion h'

theorem C4_power_transition_witness :
    (true ≠ boot_state.power_on) ∧
    (change_power boot_state true).1.power_on = true ∧
    (change_power boot_state true).1.eclock = boot_state.eclock + 1000000 ∧
    (change_power boot_state true).2 = send_status (change_power boot_state true).1 :=
  ⟨by decide,
   (C4_power_transition boot_state true (by decide)).1.1,
   (C4_power_transition boot_state true (by decide)).2.2.1,
   (C4_power_transition boot_state true (by decide)).2.2.2.2.2⟩

end Retro503
